import Mathlib

/-!
Shallow embedding of `src/scaler.py` (class `DatabaseManager`), a facade
over a PostgreSQL driver.

Modelling decisions, each traceable to the source:

* The driver world is a `Heap` of numbered handles (connections and
  cursors share one id space).  `allocConn` records which database a
  connection was opened against; `closeH` marks a handle closed and is a
  no-op on an already closed handle, matching the driver's documented
  idempotent `close()`.
* Whether `psycopg2.connect` or `cursor.execute` succeeds is outside the
  program, so each operation takes oracle booleans `connectOk` / `execOk`.
* Console prints and executed SQL become a trace of `Msg` values; the
  Python return is `Except PyExc Ret`, where `Except.error` means an
  exception escaped the method (was not caught) and `Except.ok Ret.unit`
  is Python's `None`.
* Python locals that may be referenced unbound (the `finally` blocks of
  `create_database` / `list_databases` read `cursor` / `connection`
  before assignment when `connect` raises) surface as `PyExc.nameError`
  escaping the method.
* Executing on a closed cursor raises `PyExc.interfaceError`; calling a
  method on `None` raises `PyExc.attrErrorNone`; driver errors are
  `PyExc.dbError`.
-/

set_option autoImplicit false

namespace Scaler

/-- Exceptions that can arise in the embedded Python code. -/
inductive PyExc where
  | dbError
  | attrErrorNone
  | nameError
  | interfaceError
deriving DecidableEq

/-- One observable event: a console print or a SQL statement handed to
`cursor.execute` together with its bound parameters. -/
inductive Msg where
  | executedSQL (q : String) (params : List String)
  | createdDB (name : String)
  | errorMsg (e : PyExc)
  | switched (name : String)
  | notConnected
  | createdTable (name : String)
  | addedColumn (col ty tbl : String)
  | insertedRow (tbl : String)
  | deletedRow (tbl : String)
  | updatedRow (tbl : String)
  | connClosed
deriving DecidableEq

/-- A Python return value: `unit` is `None`, `dbList` is the list
returned by `list_databases`. -/
inductive Ret where
  | unit
  | dbList (names : List String)
deriving DecidableEq

/-- The driver world: `next` is the next fresh handle id, `dbOf` records
the database each connection handle was opened against, `closed` the
handles that have been closed. -/
structure Heap where
  next : Nat
  dbOf : List (Nat × String)
  closed : List Nat
deriving DecidableEq

/-- Open a connection to database `db` (`psycopg2.connect`). -/
def allocConn (hp : Heap) (db : String) : Nat × Heap :=
  (hp.next, ⟨hp.next + 1, (hp.next, db) :: hp.dbOf, hp.closed⟩)

/-- Create a cursor on a connection (`connection.cursor()`). -/
def allocCur (hp : Heap) : Nat × Heap :=
  (hp.next, ⟨hp.next + 1, hp.dbOf, hp.closed⟩)

/-- Close a handle; closing an already closed handle is a no-op, which
is the driver behaviour of `close()` on closed connections/cursors. -/
def closeH (hp : Heap) (h : Nat) : Heap :=
  if h ∈ hp.closed then hp else ⟨hp.next, hp.dbOf, h :: hp.closed⟩

/-- The facade state: the `__init__` fields of `DatabaseManager`. -/
structure DatabaseManager where
  user : String
  password : String
  host : String
  port : String
  connection : Option Nat
  cursor : Option Nat
deriving DecidableEq

/-- `DatabaseManager.__init__` with all four parameters supplied. -/
def mkManager (user password host port : String) : DatabaseManager :=
  ⟨user, password, host, port, none, none⟩

/-- `DatabaseManager.__init__` with the defaults
`host='localhost'`, `port='5432'`. -/
def mkManagerDefault (user password : String) : DatabaseManager :=
  mkManager user password "localhost" "5432"

instance : DecidableEq (Except PyExc Ret) := fun a b =>
  match a, b with
  | Except.error e, Except.error f =>
    if h : e = f then isTrue (by rw [h]) else isFalse (by simp [h])
  | Except.ok x, Except.ok y =>
    if h : x = y then isTrue (by rw [h]) else isFalse (by simp [h])
  | Except.error _, Except.ok _ => isFalse (by simp)
  | Except.ok _, Except.error _ => isFalse (by simp)

/-- Result of running one method: the new facade state, the new heap,
the trace of observable events, and the Python return. -/
structure OpResult where
  st : DatabaseManager
  hp : Heap
  out : List Msg
  ret : Except PyExc Ret
deriving DecidableEq

/-! ### SQL string building (psycopg2 `sql` module and f-strings) -/

/-- The double-quote character used by `sql.Identifier`. -/
def dqChar : Char := Char.ofNat 34

/-- The single-quote character used by `sql.Literal`. -/
def sqChar : Char := Char.ofNat 39

/-- Identifier escaping: embedded double quotes are doubled. -/
def escIdent : List Char → List Char
  | [] => []
  | c :: cs => if c = dqChar then dqChar :: dqChar :: escIdent cs else c :: escIdent cs

/-- `sql.Identifier(s)` rendered: the name wrapped in double quotes. -/
def quoteIdent (s : String) : String :=
  String.mk (dqChar :: (escIdent s.data ++ [dqChar]))

/-- Literal escaping: embedded single quotes are doubled. -/
def escLit : List Char → List Char
  | [] => []
  | c :: cs => if c = sqChar then sqChar :: sqChar :: escLit cs else c :: escLit cs

/-- `sql.Literal(v)` rendered: the value wrapped in single quotes. -/
def quoteLit (s : String) : String :=
  String.mk (sqChar :: (escLit s.data ++ [sqChar]))

/-- Python `', '.join`. -/
def joinComma : List String → String
  | [] => ""
  | [s] => s
  | s :: ss => s ++ ", " ++ joinComma ss

/-- Line 31: `create_db_query = f"CREATE DATABASE {dbname}"` — the name
is interpolated raw, with no quoting or validation. -/
def create_database_query (dbname : String) : String :=
  "CREATE DATABASE " ++ dbname

/-- Line 62: the query sent by `list_databases`. -/
def list_databases_query : String :=
  "SELECT datname FROM pg_database WHERE datistemplate = false;"

/-- Line 110: `', '.join([f"{col[0]} {col[1]}" for col in columns])` —
column names and types are interpolated raw. -/
def columnsClause (columns : List (String × String)) : String :=
  joinComma (columns.map fun c => c.1 ++ " " ++ c.2)

/-- Lines 108-119: the CREATE TABLE statement.  The table name goes
through `sql.Identifier`; with a falsy `columns` the empty form is
used. -/
def create_table_query (table_name : String) (columns : List (String × String)) : String :=
  match columns with
  | [] => "CREATE TABLE " ++ quoteIdent table_name ++ " ()"
  | _ => "CREATE TABLE " ++ quoteIdent table_name ++ " (" ++ columnsClause columns ++ ")"

/-- Lines 144-148: ALTER TABLE with `sql.Identifier` on table and column
and the type string passed verbatim through `sql.SQL`. -/
def add_column_query (table_name column_name column_type : String) : String :=
  "ALTER TABLE " ++ quoteIdent table_name ++ " ADD COLUMN " ++
    quoteIdent column_name ++ " " ++ column_type

/-- Lines 177-181: INSERT with `sql.Identifier` on the table name and on
every column name, and `sql.Literal` on every value. -/
def insert_row_query (table_name : String) (column_values : List (String × String)) : String :=
  "INSERT INTO " ++ quoteIdent table_name ++ " (" ++
    joinComma (column_values.map fun kv => quoteIdent kv.1) ++ ") VALUES (" ++
    joinComma (column_values.map fun kv => quoteLit kv.2) ++ ")"

/-- Lines 205-207: DELETE with `sql.Identifier` on the table name and a
placeholder for the id. -/
def delete_row_query (table_name : String) : String :=
  "DELETE FROM " ++ quoteIdent table_name ++ " WHERE id = %s"

/-- Line 233: `', '.join([f"{key} = %s" for key in update_data.keys()])`
— the keys are interpolated raw, not through `sql.Identifier`. -/
def update_set_clause (update_data : List (String × String)) : String :=
  joinComma (update_data.map fun kv => kv.1 ++ " = %s")

/-- Lines 236-239: UPDATE with `sql.Identifier` on the table name and
the raw SET clause spliced in through `sql.SQL`. -/
def update_row_query (table_name : String) (update_data : List (String × String)) : String :=
  "UPDATE " ++ quoteIdent table_name ++ " SET " ++ update_set_clause update_data ++
    " WHERE id = %s"

/-! ### The methods of `DatabaseManager` -/

/-- Lines 13-45, `create_database`.  On a failed `connect` the locals
`cursor` and `connection` stay unbound, the `except` prints the error,
and the `finally` block's `if cursor:` raises `UnboundLocalError`
(`PyExc.nameError`) which escapes the method.  On a successful connect
the `finally` block closes the cursor then the connection on every exit
path, and the method returns `None`. -/
def create_database (st : DatabaseManager) (hp : Heap) (dbname : String)
    (connectOk execOk : Bool) : OpResult :=
  if connectOk then
    let conn := allocConn hp "postgres"
    let cur := allocCur conn.2
    if execOk then
      ⟨st, closeH (closeH cur.2 cur.1) conn.1,
        [Msg.executedSQL (create_database_query dbname) [], Msg.createdDB dbname],
        Except.ok Ret.unit⟩
    else
      ⟨st, closeH (closeH cur.2 cur.1) conn.1,
        [Msg.executedSQL (create_database_query dbname) [], Msg.errorMsg PyExc.dbError],
        Except.ok Ret.unit⟩
  else
    ⟨st, hp, [Msg.errorMsg PyExc.dbError], Except.error PyExc.nameError⟩

/-- Lines 47-77, `list_databases`.  Same skeleton as `create_database`;
on full success it returns the fetched names, on a caught error it falls
through to return `None`, and on a failed connect the `finally` block
raises `UnboundLocalError`. -/
def list_databases (st : DatabaseManager) (hp : Heap)
    (connectOk execOk : Bool) (rows : List String) : OpResult :=
  if connectOk then
    let conn := allocConn hp "postgres"
    let cur := allocCur conn.2
    if execOk then
      ⟨st, closeH (closeH cur.2 cur.1) conn.1,
        [Msg.executedSQL list_databases_query []],
        Except.ok (Ret.dbList rows)⟩
    else
      ⟨st, closeH (closeH cur.2 cur.1) conn.1,
        [Msg.executedSQL list_databases_query [], Msg.errorMsg PyExc.dbError],
        Except.ok Ret.unit⟩
  else
    ⟨st, hp, [Msg.errorMsg PyExc.dbError], Except.error PyExc.nameError⟩

/-- Lines 79-93, `switch_database`.  On success it overwrites
`self.connection` and `self.cursor` with fresh handles; the previous
connection is never closed.  On failure the exception is caught and
printed and the stored state is left untouched. -/
def switch_database (st : DatabaseManager) (hp : Heap) (dbname : String)
    (connectOk : Bool) : OpResult :=
  if connectOk then
    let conn := allocConn hp dbname
    let cur := allocCur conn.2
    ⟨{ st with connection := some conn.1, cursor := some cur.1 }, cur.2,
      [Msg.switched dbname], Except.ok Ret.unit⟩
  else
    ⟨st, hp, [Msg.errorMsg PyExc.dbError], Except.ok Ret.unit⟩

/-- Lines 95-128, `create_table`.  Guard: `if not self.connection or not
self.cursor` prints the not-connected message and returns.  Otherwise
the statement is executed on the stored cursor: a closed cursor raises
`InterfaceError`, a driver rejection raises a database error; both are
caught and printed. -/
def create_table (st : DatabaseManager) (hp : Heap) (table_name : String)
    (columns : List (String × String)) (execOk : Bool) : OpResult :=
  match st.connection, st.cursor with
  | some _, some cur =>
    if cur ∈ hp.closed then
      ⟨st, hp, [Msg.errorMsg PyExc.interfaceError], Except.ok Ret.unit⟩
    else if execOk then
      ⟨st, hp,
        [Msg.executedSQL (create_table_query table_name columns) [],
         Msg.createdTable table_name],
        Except.ok Ret.unit⟩
    else
      ⟨st, hp,
        [Msg.executedSQL (create_table_query table_name columns) [],
         Msg.errorMsg PyExc.dbError],
        Except.ok Ret.unit⟩
  | _, _ => ⟨st, hp, [Msg.notConnected], Except.ok Ret.unit⟩

/-- Common skeleton of `add_column`, `insert_row`, `delete_row` and
`update_row` (lines 130-251): inside a blanket `try`, first
`self.switch_database(dbname)`, then `self.cursor.execute(...)` and
`self.connection.commit()`.  If the switch failed and the stored cursor
is still `None`, the attribute access raises (`PyExc.attrErrorNone`),
caught and printed; a closed cursor raises `InterfaceError`; a driver
rejection is caught and printed.  The method always returns `None`. -/
def sessionExecOut (cursorOpt : Option Nat) (closedList : List Nat)
    (execOk : Bool) (q : String) (params : List String) (successMsg : Msg) : List Msg :=
  match cursorOpt with
  | none => [Msg.errorMsg PyExc.attrErrorNone]
  | some cur =>
    if cur ∈ closedList then [Msg.errorMsg PyExc.interfaceError]
    else if execOk then [Msg.executedSQL q params, successMsg]
    else [Msg.executedSQL q params, Msg.errorMsg PyExc.dbError]

/-- The part of the skeleton after the internal switch: none of the
four methods modifies the stored state or the heap themselves, and all
of them catch every exception of this part, so only the trace varies. -/
def sessionExec (st : DatabaseManager) (hp : Heap) (dbname : String)
    (connectOk execOk : Bool) (q : String) (params : List String)
    (successMsg : Msg) : OpResult :=
  let r := switch_database st hp dbname connectOk
  ⟨r.st, r.hp, r.out ++ sessionExecOut r.st.cursor r.hp.closed execOk q params successMsg,
    Except.ok Ret.unit⟩

/-- Lines 130-157, `add_column`. -/
def add_column (st : DatabaseManager) (hp : Heap)
    (dbname table_name column_name column_type : String)
    (connectOk execOk : Bool) : OpResult :=
  sessionExec st hp dbname connectOk execOk
    (add_column_query table_name column_name column_type) []
    (Msg.addedColumn column_name column_type table_name)

/-- Lines 159-190, `insert_row`.  All values are inlined as literals, so
no bound parameters are passed. -/
def insert_row (st : DatabaseManager) (hp : Heap)
    (dbname table_name : String) (column_values : List (String × String))
    (connectOk execOk : Bool) : OpResult :=
  sessionExec st hp dbname connectOk execOk
    (insert_row_query table_name column_values) []
    (Msg.insertedRow table_name)

/-- Lines 192-216, `delete_row`.  The id is the single bound
parameter. -/
def delete_row (st : DatabaseManager) (hp : Heap)
    (dbname table_name row_id : String)
    (connectOk execOk : Bool) : OpResult :=
  sessionExec st hp dbname connectOk execOk
    (delete_row_query table_name) [row_id]
    (Msg.deletedRow table_name)

/-- Lines 218-251, `update_row`.  Line 242:
`values = list(update_data.values()) + [row_id]` — the bound parameters
are the mapping's values followed by the id. -/
def update_row (st : DatabaseManager) (hp : Heap)
    (dbname table_name row_id : String) (update_data : List (String × String))
    (connectOk execOk : Bool) : OpResult :=
  sessionExec st hp dbname connectOk execOk
    (update_row_query table_name update_data)
    (update_data.map Prod.snd ++ [row_id])
    (Msg.updatedRow table_name)

/-- Lines 253-258, `close_connection`.  Closes the stored cursor if the
field is set, then the stored connection if set (printing the closed
message), and leaves both fields as they are — they are never reset to
`None`. -/
def close_connection (st : DatabaseManager) (hp : Heap) : OpResult :=
  let hp1 := match st.cursor with
    | some cur => closeH hp cur
    | none => hp
  match st.connection with
  | some c => ⟨st, closeH hp1 c, [Msg.connClosed], Except.ok Ret.unit⟩
  | none => ⟨st, hp1, [], Except.ok Ret.unit⟩

/-- One invocation of any public method, with its arguments and the
driver oracle bits. -/
inductive Op where
  | createDatabaseOp (dbname : String) (connectOk execOk : Bool)
  | listDatabasesOp (connectOk execOk : Bool) (rows : List String)
  | switchDatabaseOp (dbname : String) (connectOk : Bool)
  | createTableOp (table_name : String) (columns : List (String × String)) (execOk : Bool)
  | addColumnOp (dbname table_name column_name column_type : String) (connectOk execOk : Bool)
  | insertRowOp (dbname table_name : String) (column_values : List (String × String))
      (connectOk execOk : Bool)
  | deleteRowOp (dbname table_name row_id : String) (connectOk execOk : Bool)
  | updateRowOp (dbname table_name row_id : String) (update_data : List (String × String))
      (connectOk execOk : Bool)
  | closeConnectionOp

/-- Run one method on the facade. -/
def step (st : DatabaseManager) (hp : Heap) : Op → OpResult
  | Op.createDatabaseOp dbname c e => create_database st hp dbname c e
  | Op.listDatabasesOp c e rows => list_databases st hp c e rows
  | Op.switchDatabaseOp dbname c => switch_database st hp dbname c
  | Op.createTableOp t cols e => create_table st hp t cols e
  | Op.addColumnOp d t col ty c e => add_column st hp d t col ty c e
  | Op.insertRowOp d t cv c e => insert_row st hp d t cv c e
  | Op.deleteRowOp d t rid c e => delete_row st hp d t rid c e
  | Op.updateRowOp d t rid dat c e => update_row st hp d t rid dat c e
  | Op.closeConnectionOp => close_connection st hp

/-- The operations whose `finally` block reads locals that are unbound
when the initial `connect` raised: `create_database` and
`list_databases` with a failing connection attempt. -/
def maintConnectFails : Op → Prop
  | Op.createDatabaseOp _ connectOk _ => connectOk = false
  | Op.listDatabasesOp connectOk _ _ => connectOk = false
  | _ => False

/-- `small` occurs as a contiguous segment of `big`. -/
def containsSeg (small big : List Char) : Prop :=
  ∃ u v, big = u ++ (small ++ v)

/-- `small` occurs as a contiguous substring of `big`. -/
def strContains (big small : String) : Prop :=
  containsSeg small.data big.data

/-! ### Helper lemmas about the heap -/

theorem mem_closeH_self (hp : Heap) (h : Nat) : h ∈ (closeH hp h).closed := by
  unfold closeH
  split
  · assumption
  · exact List.mem_cons_self _ _

theorem mem_closeH_of_mem (hp : Heap) {g : Nat} (h : Nat) (hm : g ∈ hp.closed) :
    g ∈ (closeH hp h).closed := by
  unfold closeH
  split
  · exact hm
  · exact List.mem_cons_of_mem _ hm

theorem closeH_of_mem (hp : Heap) {h : Nat} (hm : h ∈ hp.closed) : closeH hp h = hp := by
  unfold closeH
  simp [hm]

theorem closeH_closeH (hp : Heap) (h : Nat) : closeH (closeH hp h) h = closeH hp h :=
  closeH_of_mem _ (mem_closeH_self hp h)

/-! ### Helper lemmas about string and segment containment -/

/-- `(a ++ b).data` unfolds to list append. -/
theorem data_app (a b : String) : (a ++ b).data = a.data ++ b.data := rfl

theorem containsSeg_refl (l : List Char) : containsSeg l l :=
  ⟨[], [], by simp⟩

theorem containsSeg_append_right {small t : List Char} (s : List Char)
    (h : containsSeg small t) : containsSeg small (s ++ t) := by
  obtain ⟨u, v, rfl⟩ := h
  exact ⟨s ++ u, v, by simp⟩

theorem containsSeg_append_left {small t : List Char} (s : List Char)
    (h : containsSeg small t) : containsSeg small (t ++ s) := by
  obtain ⟨u, v, rfl⟩ := h
  exact ⟨u, v ++ s, by simp⟩

theorem joinComma_cons (a b : String) (tl : List String) :
    joinComma (a :: b :: tl) = a ++ ", " ++ joinComma (b :: tl) := rfl

/-- Every member of a list occurs as a contiguous segment of its
comma-join. -/
theorem containsSeg_joinComma {l : List String} {s : String} (h : s ∈ l) :
    containsSeg s.data (joinComma l).data := by
  induction l with
  | nil => cases h
  | cons a tl ih =>
    cases tl with
    | nil =>
      have hs : s = a := by simpa using h
      subst hs
      exact containsSeg_refl _
    | cons b tl2 =>
      rcases List.mem_cons.mp h with h1 | h2
      · subst h1
        rw [joinComma_cons, data_app, data_app]
        exact containsSeg_append_left _
          (containsSeg_append_left _ (containsSeg_refl _))
      · rw [joinComma_cons, data_app]
        exact containsSeg_append_right _ (ih h2)

/-! ### Helper lemmas about the methods -/

theorem switch_database_st_true (st : DatabaseManager) (hp : Heap) (d : String) :
    (switch_database st hp d true).st =
      { st with connection := some hp.next, cursor := some (hp.next + 1) } := rfl

theorem switch_database_hp_true (st : DatabaseManager) (hp : Heap) (d : String) :
    (switch_database st hp d true).hp =
      ⟨hp.next + 2, (hp.next, d) :: hp.dbOf, hp.closed⟩ := rfl

theorem switch_database_false (st : DatabaseManager) (hp : Heap) (d : String) :
    switch_database st hp d false =
      ⟨st, hp, [Msg.errorMsg PyExc.dbError], Except.ok Ret.unit⟩ := rfl

theorem sessionExec_ret (st : DatabaseManager) (hp : Heap) (d : String)
    (c e : Bool) (q : String) (ps : List String) (m : Msg) :
    (sessionExec st hp d c e q ps m).ret = Except.ok Ret.unit := rfl

theorem sessionExec_st (st : DatabaseManager) (hp : Heap) (d : String)
    (c e : Bool) (q : String) (ps : List String) (m : Msg) :
    (sessionExec st hp d c e q ps m).st = (switch_database st hp d c).st := rfl

theorem sessionExec_hp (st : DatabaseManager) (hp : Heap) (d : String)
    (c e : Bool) (q : String) (ps : List String) (m : Msg) :
    (sessionExec st hp d c e q ps m).hp = (switch_database st hp d c).hp := rfl

theorem create_database_st (st : DatabaseManager) (hp : Heap) (d : String) (c e : Bool) :
    (create_database st hp d c e).st = st := by
  cases c <;> cases e <;> rfl

theorem list_databases_st (st : DatabaseManager) (hp : Heap) (c e : Bool)
    (rows : List String) : (list_databases st hp c e rows).st = st := by
  cases c <;> cases e <;> rfl

theorem create_table_st (st : DatabaseManager) (hp : Heap) (t : String)
    (cols : List (String × String)) (e : Bool) : (create_table st hp t cols e).st = st := by
  unfold create_table
  split
  · split
    · rfl
    · split <;> rfl
  · rfl

theorem create_table_ret (st : DatabaseManager) (hp : Heap) (t : String)
    (cols : List (String × String)) (e : Bool) :
    (create_table st hp t cols e).ret = Except.ok Ret.unit := by
  unfold create_table
  split
  · split
    · rfl
    · split <;> rfl
  · rfl

theorem close_connection_st (st : DatabaseManager) (hp : Heap) :
    (close_connection st hp).st = st := by
  unfold close_connection
  cases st.connection <;> rfl

theorem close_connection_ret (st : DatabaseManager) (hp : Heap) :
    (close_connection st hp).ret = Except.ok Ret.unit := by
  unfold close_connection
  cases st.connection <;> rfl

theorem switch_database_creds (st : DatabaseManager) (hp : Heap) (d : String) (c : Bool) :
    (switch_database st hp d c).st.user = st.user
    ∧ (switch_database st hp d c).st.password = st.password
    ∧ (switch_database st hp d c).st.host = st.host
    ∧ (switch_database st hp d c).st.port = st.port := by
  cases c <;> exact ⟨rfl, rfl, rfl, rfl⟩

theorem close_connection_hp_idem (st : DatabaseManager) (hp : Heap) :
    (close_connection st (close_connection st hp).hp).hp = (close_connection st hp).hp := by
  obtain ⟨u, p, h, po, conn, cur⟩ := st
  cases conn with
  | none =>
    cases cur with
    | none => rfl
    | some cu =>
      show closeH (closeH hp cu) cu = closeH hp cu
      exact closeH_closeH hp cu
  | some c =>
    cases cur with
    | none =>
      show closeH (closeH hp c) c = closeH hp c
      exact closeH_closeH hp c
    | some cu =>
      show closeH (closeH (closeH (closeH hp cu) c) cu) c = closeH (closeH hp cu) c
      rw [closeH_of_mem _ (mem_closeH_of_mem (closeH hp cu) c (mem_closeH_self hp cu)),
        closeH_of_mem _ (mem_closeH_self (closeH hp cu) c)]

theorem setClause_mem (data : List (String × String)) (k : String)
    (hk : k ∈ data.map Prod.fst) :
    containsSeg (k ++ " = %s").data (update_set_clause data).data := by
  have hmem : (k ++ " = %s") ∈ data.map fun kv => kv.1 ++ " = %s" := by
    obtain ⟨kv, hkv, hfst⟩ := List.mem_map.mp hk
    exact List.mem_map.mpr ⟨kv, hkv, by rw [hfst]⟩
  exact containsSeg_joinComma hmem

/-! ### Claim C1 -/

/-- C1, counterexample.  The claim says no operation ever propagates an
exception.  But `create_database` on a manager with valid fields, when
the connection attempt fails, propagates an `UnboundLocalError` from its
`finally` block (`if cursor:` reads a local that was never bound). -/
theorem claim_C1_counterexample :
    (create_database (mkManagerDefault "postgres" "postgres") ⟨0, [], []⟩
        "newdb" false true).ret = Except.error PyExc.nameError := rfl

/-- C1, amended.  Every public operation either returns normally
(`None`, i.e. `Ret.unit`, or the fetched list for a fully successful
`list_databases`) with all exceptions of its body caught and printed, or
it is `create_database` / `list_databases` with a failed connection
attempt, in which case an `UnboundLocalError` escapes from the `finally`
block. -/
theorem claim_C1_amended (st : DatabaseManager) (hp : Heap) (op : Op) :
    ((step st hp op).ret = Except.error PyExc.nameError ∧ maintConnectFails op)
    ∨ (step st hp op).ret = Except.ok Ret.unit
    ∨ ∃ ds, (step st hp op).ret = Except.ok (Ret.dbList ds) := by
  cases op with
  | createDatabaseOp d c e =>
    cases c
    · exact Or.inl ⟨rfl, rfl⟩
    · cases e
      · exact Or.inr (Or.inl rfl)
      · exact Or.inr (Or.inl rfl)
  | listDatabasesOp c e rows =>
    cases c
    · exact Or.inl ⟨rfl, rfl⟩
    · cases e
      · exact Or.inr (Or.inl rfl)
      · exact Or.inr (Or.inr ⟨rows, rfl⟩)
  | switchDatabaseOp d c =>
    cases c <;> exact Or.inr (Or.inl rfl)
  | createTableOp t cols e =>
    exact Or.inr (Or.inl (create_table_ret st hp t cols e))
  | addColumnOp d t col ty c e => exact Or.inr (Or.inl rfl)
  | insertRowOp d t cv c e => exact Or.inr (Or.inl rfl)
  | deleteRowOp d t rid c e => exact Or.inr (Or.inl rfl)
  | updateRowOp d t rid dat c e => exact Or.inr (Or.inl rfl)
  | closeConnectionOp =>
    exact Or.inr (Or.inl (close_connection_ret st hp))

/-! ### Claim C2 -/

/-- C2, counterexample.  Identifiers full of SQL metacharacters are not
rejected: `create_database` interpolates a malicious database name raw
into the statement, executes it and reports success, and `create_table`
builds its statement with a malicious column name interpolated raw
(unquoted) into the column list, no ValidationError anywhere. -/
theorem claim_C2_counterexample :
    (create_database (mkManagerDefault "postgres" "postgres") ⟨0, [], []⟩
        "foo; DROP DATABASE bar" true true).out
      = [Msg.executedSQL "CREATE DATABASE foo; DROP DATABASE bar" [],
         Msg.createdDB "foo; DROP DATABASE bar"]
    ∧ (create_database (mkManagerDefault "postgres" "postgres") ⟨0, [], []⟩
        "foo; DROP DATABASE bar" true true).ret = Except.ok Ret.unit
    ∧ create_table_query "person" [("age; DROP TABLE users; --", "INTEGER")]
        = "CREATE TABLE \"person\" (age; DROP TABLE users; -- INTEGER)" := by
  refine ⟨?_, rfl, ?_⟩
  · decide
  · decide

/-- C2, amended.  No identifier validation exists and no ValidationError
is ever raised.  For EVERY database name, metacharacters included,
`create_database` executes the raw f-string interpolation
`CREATE DATABASE <dbname>` and returns normally.  And in
`create_table`'s statement the table name is rendered through the
identifier quoter (`sql.Identifier`), while every column name and type
string from the column list appears verbatim (unquoted, unescaped) as a
substring. -/
theorem claim_C2_amended (st : DatabaseManager) (hp : Heap) (dbname t : String)
    (cols : List (String × String)) (col : String × String) (hcol : col ∈ cols) :
    ((create_database st hp dbname true true).out
        = [Msg.executedSQL ("CREATE DATABASE " ++ dbname) [], Msg.createdDB dbname]
      ∧ (create_database st hp dbname true true).ret = Except.ok Ret.unit)
    ∧ strContains (create_table_query t cols) (quoteIdent t)
    ∧ strContains (create_table_query t cols) (col.1 ++ " " ++ col.2) := by
  refine ⟨⟨rfl, rfl⟩, ?_, ?_⟩
  · cases cols with
    | nil => cases hcol
    | cons c rest =>
      show containsSeg (quoteIdent t).data (create_table_query t (c :: rest)).data
      have heq : (create_table_query t (c :: rest)).data
          = "CREATE TABLE ".data
              ++ ((quoteIdent t).data
                  ++ (" (".data ++ ((columnsClause (c :: rest)).data ++ ")".data))) := by
        simp [create_table_query, data_app, List.append_assoc]
      rw [heq]
      exact containsSeg_append_right _ (containsSeg_append_left _ (containsSeg_refl _))
  · cases cols with
    | nil => cases hcol
    | cons c rest =>
      show containsSeg (col.1 ++ " " ++ col.2).data (create_table_query t (c :: rest)).data
      have hmem : (col.1 ++ " " ++ col.2) ∈ (c :: rest).map fun p => p.1 ++ " " ++ p.2 :=
        List.mem_map.mpr ⟨col, hcol, rfl⟩
      have hseg : containsSeg (col.1 ++ " " ++ col.2).data
          (columnsClause (c :: rest)).data := containsSeg_joinComma hmem
      have heq : (create_table_query t (c :: rest)).data
          = (("CREATE TABLE ".data ++ (quoteIdent t).data) ++ " (".data)
              ++ ((columnsClause (c :: rest)).data ++ ")".data) := by
        simp [create_table_query, data_app, List.append_assoc]
      rw [heq]
      exact containsSeg_append_right _ (containsSeg_append_left _ hseg)

/-- C2 witness: the amended statement evaluated on the example schema
from the source's usage script. -/
theorem claim_C2_witness :
    ((create_database (mkManagerDefault "postgres" "postgres") ⟨0, [], []⟩
          "new_db" true true).out
        = [Msg.executedSQL ("CREATE DATABASE " ++ "new_db") [], Msg.createdDB "new_db"]
      ∧ (create_database (mkManagerDefault "postgres" "postgres") ⟨0, [], []⟩
          "new_db" true true).ret = Except.ok Ret.unit)
    ∧ strContains
        (create_table_query "person" [("id", "SERIAL PRIMARY KEY"), ("name", "VARCHAR(100)")])
        (quoteIdent "person")
    ∧ strContains
        (create_table_query "person" [("id", "SERIAL PRIMARY KEY"), ("name", "VARCHAR(100)")])
        ("id" ++ " " ++ "SERIAL PRIMARY KEY") :=
  claim_C2_amended (mkManagerDefault "postgres" "postgres") ⟨0, [], []⟩ "new_db" "person"
    [("id", "SERIAL PRIMARY KEY"), ("name", "VARCHAR(100)")] ("id", "SERIAL PRIMARY KEY")
    (by decide)

/-! ### Claim C3 -/

/-- C3, counterexample.  `insert_row` invoked on a fresh manager (no
prior `switch_database`) whose internal switch fails does not produce a
not-connected error: it dereferences the unset (`None`) cursor, and the
resulting AttributeError is caught and printed as a generic error. -/
theorem claim_C3_counterexample :
    (insert_row (mkManagerDefault "postgres" "postgres") ⟨0, [], []⟩ "new_db" "person"
        [("name", "John Doe")] false true).out
      = [Msg.errorMsg PyExc.dbError, Msg.errorMsg PyExc.attrErrorNone]
    ∧ Msg.notConnected ∉
        (insert_row (mkManagerDefault "postgres" "postgres") ⟨0, [], []⟩ "new_db" "person"
          [("name", "John Doe")] false true).out := by
  constructor
  · rfl
  · decide

/-- C3, amended.  Before any successful `switch_database`, only
`create_table` fails cleanly with the not-connected message.  The other
four session-scoped operations re-invoke `switch_database`; when that
connection attempt fails they dereference the unset cursor, and the
AttributeError is caught and printed as a generic error — no
not-connected error is reported, though nothing propagates. -/
theorem claim_C3_amended (st : DatabaseManager) (hp : Heap)
    (dbname table col ty rid : String) (cols cv dat : List (String × String)) (e : Bool)
    (hconn : st.connection = none) (hcur : st.cursor = none) :
    create_table st hp table cols e = ⟨st, hp, [Msg.notConnected], Except.ok Ret.unit⟩
    ∧ add_column st hp dbname table col ty false e
        = ⟨st, hp, [Msg.errorMsg PyExc.dbError, Msg.errorMsg PyExc.attrErrorNone],
            Except.ok Ret.unit⟩
    ∧ insert_row st hp dbname table cv false e
        = ⟨st, hp, [Msg.errorMsg PyExc.dbError, Msg.errorMsg PyExc.attrErrorNone],
            Except.ok Ret.unit⟩
    ∧ delete_row st hp dbname table rid false e
        = ⟨st, hp, [Msg.errorMsg PyExc.dbError, Msg.errorMsg PyExc.attrErrorNone],
            Except.ok Ret.unit⟩
    ∧ update_row st hp dbname table rid dat false e
        = ⟨st, hp, [Msg.errorMsg PyExc.dbError, Msg.errorMsg PyExc.attrErrorNone],
            Except.ok Ret.unit⟩ := by
  refine ⟨?_, ?_, ?_, ?_, ?_⟩
  · simp [create_table, hconn]
  · simp [add_column, sessionExec, sessionExecOut, switch_database, hcur]
  · simp [insert_row, sessionExec, sessionExecOut, switch_database, hcur]
  · simp [delete_row, sessionExec, sessionExecOut, switch_database, hcur]
  · simp [update_row, sessionExec, sessionExecOut, switch_database, hcur]

/-- C3 witness: the amended statement evaluated on a fresh manager. -/
theorem claim_C3_witness :
    create_table (mkManagerDefault "postgres" "postgres") ⟨0, [], []⟩ "person" [] true
      = ⟨mkManagerDefault "postgres" "postgres", ⟨0, [], []⟩, [Msg.notConnected],
          Except.ok Ret.unit⟩
    ∧ add_column (mkManagerDefault "postgres" "postgres") ⟨0, [], []⟩
        "new_db" "person" "age" "INTEGER" false true
      = ⟨mkManagerDefault "postgres" "postgres", ⟨0, [], []⟩,
          [Msg.errorMsg PyExc.dbError, Msg.errorMsg PyExc.attrErrorNone],
          Except.ok Ret.unit⟩
    ∧ insert_row (mkManagerDefault "postgres" "postgres") ⟨0, [], []⟩
        "new_db" "person" [("age", "30")] false true
      = ⟨mkManagerDefault "postgres" "postgres", ⟨0, [], []⟩,
          [Msg.errorMsg PyExc.dbError, Msg.errorMsg PyExc.attrErrorNone],
          Except.ok Ret.unit⟩
    ∧ delete_row (mkManagerDefault "postgres" "postgres") ⟨0, [], []⟩
        "new_db" "person" "1" false true
      = ⟨mkManagerDefault "postgres" "postgres", ⟨0, [], []⟩,
          [Msg.errorMsg PyExc.dbError, Msg.errorMsg PyExc.attrErrorNone],
          Except.ok Ret.unit⟩
    ∧ update_row (mkManagerDefault "postgres" "postgres") ⟨0, [], []⟩
        "new_db" "person" "1" [("age", "31")] false true
      = ⟨mkManagerDefault "postgres" "postgres", ⟨0, [], []⟩,
          [Msg.errorMsg PyExc.dbError, Msg.errorMsg PyExc.attrErrorNone],
          Except.ok Ret.unit⟩ :=
  claim_C3_amended (mkManagerDefault "postgres" "postgres") ⟨0, [], []⟩
    "new_db" "person" "age" "INTEGER" "1" [] [("age", "30")] [("age", "31")] true rfl rfl

/-! ### Claim C4 -/

/-- C4, counterexample.  A manager holding open connection 0 switches to
a new database: the stored state is replaced by fresh handles, yet the
prior connection 0 is never closed (the closed set stays empty). -/
theorem claim_C4_counterexample :
    (switch_database ⟨"postgres", "postgres", "localhost", "5432", some 0, some 1⟩
        ⟨2, [(0, "old_db")], []⟩ "new_db" true).st.connection = some 2
    ∧ (0 : Nat) ∉ (switch_database ⟨"postgres", "postgres", "localhost", "5432", some 0, some 1⟩
        ⟨2, [(0, "old_db")], []⟩ "new_db" true).hp.closed := by
  constructor
  · rfl
  · decide

/-- C4, amended.  When the facade already holds an open connection, a
successful `switch_database` replaces the stored connection and cursor
with fresh handles but does NOT close the previously held connection:
the closed set is unchanged and the prior connection stays open
(a leak). -/
theorem claim_C4_amended (st : DatabaseManager) (hp : Heap) (dbname : String) (c : Nat)
    (hconn : st.connection = some c) (hopen : c ∉ hp.closed) :
    (switch_database st hp dbname true).st.connection = some hp.next
    ∧ (switch_database st hp dbname true).st.cursor = some (hp.next + 1)
    ∧ (switch_database st hp dbname true).hp.closed = hp.closed
    ∧ c ∉ (switch_database st hp dbname true).hp.closed :=
  ⟨rfl, rfl, rfl, hopen⟩

/-- C4 witness: the amended statement evaluated on a manager holding
open connection 0. -/
theorem claim_C4_witness :
    (switch_database ⟨"u", "pw", "localhost", "5432", some 0, some 1⟩
        ⟨2, [(0, "old_db")], []⟩ "new_db" true).st.connection = some 2
    ∧ (switch_database ⟨"u", "pw", "localhost", "5432", some 0, some 1⟩
        ⟨2, [(0, "old_db")], []⟩ "new_db" true).st.cursor = some 3
    ∧ (switch_database ⟨"u", "pw", "localhost", "5432", some 0, some 1⟩
        ⟨2, [(0, "old_db")], []⟩ "new_db" true).hp.closed = []
    ∧ (0 : Nat) ∉ (switch_database ⟨"u", "pw", "localhost", "5432", some 0, some 1⟩
        ⟨2, [(0, "old_db")], []⟩ "new_db" true).hp.closed :=
  claim_C4_amended ⟨"u", "pw", "localhost", "5432", some 0, some 1⟩
    ⟨2, [(0, "old_db")], []⟩ "new_db" 0 rfl (by decide)

/-! ### Claim C5 -/

/-- C5, counterexample.  When the connection attempt of
`list_databases` fails, the `finally` block reads the unbound local
`cursor` and itself raises `UnboundLocalError`, which escapes — the
cleanup path faults. -/
theorem claim_C5_counterexample :
    (list_databases (mkManagerDefault "postgres" "postgres") ⟨0, [], []⟩
        false true []).ret = Except.error PyExc.nameError := rfl

/-- C5, amended.  When the connection attempt succeeds, both handles
opened by `create_database` / `list_databases` are closed before
return, on success and on query failure alike (and `create_database`
returns `None`).  When the connection attempt itself fails, nothing was
opened (the heap is untouched) but the `finally` block raises
`UnboundLocalError`, so the cleanup path faults. -/
theorem claim_C5_amended (st : DatabaseManager) (hp : Heap) (dbname : String)
    (e : Bool) (rows : List String) :
    (hp.next ∈ (create_database st hp dbname true e).hp.closed
      ∧ hp.next + 1 ∈ (create_database st hp dbname true e).hp.closed
      ∧ (create_database st hp dbname true e).ret = Except.ok Ret.unit)
    ∧ (hp.next ∈ (list_databases st hp true e rows).hp.closed
      ∧ hp.next + 1 ∈ (list_databases st hp true e rows).hp.closed)
    ∧ (create_database st hp dbname false e).ret = Except.error PyExc.nameError
    ∧ (create_database st hp dbname false e).hp = hp
    ∧ (list_databases st hp false e rows).ret = Except.error PyExc.nameError
    ∧ (list_databases st hp false e rows).hp = hp := by
  cases e <;>
    exact ⟨⟨mem_closeH_self _ _, mem_closeH_of_mem _ _ (mem_closeH_self _ _), rfl⟩,
      ⟨mem_closeH_self _ _, mem_closeH_of_mem _ _ (mem_closeH_self _ _)⟩, rfl, rfl, rfl, rfl⟩

/-! ### Claim C6 -/

/-- C6.  `close_connection` is idempotent: a second call leaves the
facade state and the heap exactly as after the first and does not fault
(both calls return `None`); and when neither a connection nor a cursor
is held it is a complete no-op. -/
theorem claim_C6 (st : DatabaseManager) (hp : Heap) :
    (close_connection (close_connection st hp).st (close_connection st hp).hp).st
      = (close_connection st hp).st
    ∧ (close_connection (close_connection st hp).st (close_connection st hp).hp).hp
      = (close_connection st hp).hp
    ∧ (close_connection st hp).ret = Except.ok Ret.unit
    ∧ (close_connection (close_connection st hp).st (close_connection st hp).hp).ret
      = Except.ok Ret.unit
    ∧ (st.connection = none → st.cursor = none →
        close_connection st hp = ⟨st, hp, [], Except.ok Ret.unit⟩) := by
  refine ⟨close_connection_st _ _, ?_, close_connection_ret st hp,
    close_connection_ret _ _, ?_⟩
  · rw [close_connection_st st hp]
    exact close_connection_hp_idem st hp
  · intro h1 h2
    simp [close_connection, h1, h2]

/-- C6 witness: on a fresh manager (nothing held) `close_connection` is
a no-op and returns `None`. -/
theorem claim_C6_witness :
    close_connection (mkManagerDefault "postgres" "postgres") ⟨0, [], []⟩
      = ⟨mkManagerDefault "postgres" "postgres", ⟨0, [], []⟩, [], Except.ok Ret.unit⟩ :=
  (claim_C6 (mkManagerDefault "postgres" "postgres") ⟨0, [], []⟩).2.2.2.2 rfl rfl

/-! ### Claim C7 -/

/-- C7.  Even when the facade is already connected to the requested
database (`st.connection = some c` with `c` recorded as a connection to
`dbname`), each of `add_column`, `insert_row`, `delete_row` and
`update_row` first invokes `switch_database dbname` (the trace starts
with the switch event) and ends up holding a freshly allocated
connection handle, distinct from the one it held before. -/
theorem claim_C7 (st : DatabaseManager) (hp : Heap) (c : Nat)
    (dbname table col ty rid : String) (cv dat : List (String × String)) (e : Bool)
    (hconn : st.connection = some c) (hdb : hp.dbOf.lookup c = some dbname)
    (hlt : c < hp.next) :
    hp.next ≠ c
    ∧ ((add_column st hp dbname table col ty true e).st.connection = some hp.next
       ∧ (add_column st hp dbname table col ty true e).out.head? = some (Msg.switched dbname))
    ∧ ((insert_row st hp dbname table cv true e).st.connection = some hp.next
       ∧ (insert_row st hp dbname table cv true e).out.head? = some (Msg.switched dbname))
    ∧ ((delete_row st hp dbname table rid true e).st.connection = some hp.next
       ∧ (delete_row st hp dbname table rid true e).out.head? = some (Msg.switched dbname))
    ∧ ((update_row st hp dbname table rid dat true e).st.connection = some hp.next
       ∧ (update_row st hp dbname table rid dat true e).out.head? = some (Msg.switched dbname)) :=
  ⟨Nat.ne_of_gt hlt, ⟨rfl, rfl⟩, ⟨rfl, rfl⟩, ⟨rfl, rfl⟩, ⟨rfl, rfl⟩⟩

/-- C7 witness: a manager already connected to `db1` via connection 0;
every row-level operation on `db1` still reconnects, replacing
connection 0 by the fresh connection 2. -/
theorem claim_C7_witness :
    (2 : Nat) ≠ 0
    ∧ ((add_column ⟨"u", "pw", "localhost", "5432", some 0, some 1⟩ ⟨2, [(0, "db1")], []⟩
          "db1" "person" "age" "INTEGER" true true).st.connection = some 2
       ∧ (add_column ⟨"u", "pw", "localhost", "5432", some 0, some 1⟩ ⟨2, [(0, "db1")], []⟩
          "db1" "person" "age" "INTEGER" true true).out.head? = some (Msg.switched "db1"))
    ∧ ((insert_row ⟨"u", "pw", "localhost", "5432", some 0, some 1⟩ ⟨2, [(0, "db1")], []⟩
          "db1" "person" [("age", "30")] true true).st.connection = some 2
       ∧ (insert_row ⟨"u", "pw", "localhost", "5432", some 0, some 1⟩ ⟨2, [(0, "db1")], []⟩
          "db1" "person" [("age", "30")] true true).out.head? = some (Msg.switched "db1"))
    ∧ ((delete_row ⟨"u", "pw", "localhost", "5432", some 0, some 1⟩ ⟨2, [(0, "db1")], []⟩
          "db1" "person" "1" true true).st.connection = some 2
       ∧ (delete_row ⟨"u", "pw", "localhost", "5432", some 0, some 1⟩ ⟨2, [(0, "db1")], []⟩
          "db1" "person" "1" true true).out.head? = some (Msg.switched "db1"))
    ∧ ((update_row ⟨"u", "pw", "localhost", "5432", some 0, some 1⟩ ⟨2, [(0, "db1")], []⟩
          "db1" "person" "1" [("age", "31")] true true).st.connection = some 2
       ∧ (update_row ⟨"u", "pw", "localhost", "5432", some 0, some 1⟩ ⟨2, [(0, "db1")], []⟩
          "db1" "person" "1" [("age", "31")] true true).out.head? = some (Msg.switched "db1")) :=
  claim_C7 ⟨"u", "pw", "localhost", "5432", some 0, some 1⟩ ⟨2, [(0, "db1")], []⟩ 0
    "db1" "person" "age" "INTEGER" "1" [("age", "30")] [("age", "31")] true
    rfl rfl (by decide)

/-! ### Claim C8 -/

/-- C8.  The constructor sets the four credential fields (with
`localhost` / `5432` as the defaults for host and port), and no public
operation ever modifies any of them. -/
theorem claim_C8 :
    (∀ u p, mkManagerDefault u p = mkManager u p "localhost" "5432")
    ∧ (∀ u p h po, (mkManager u p h po).user = u ∧ (mkManager u p h po).password = p
        ∧ (mkManager u p h po).host = h ∧ (mkManager u p h po).port = po)
    ∧ ∀ (st : DatabaseManager) (hp : Heap) (op : Op),
        (step st hp op).st.user = st.user ∧ (step st hp op).st.password = st.password
        ∧ (step st hp op).st.host = st.host ∧ (step st hp op).st.port = st.port := by
  refine ⟨fun u p => rfl, fun u p h po => ⟨rfl, rfl, rfl, rfl⟩, fun st hp op => ?_⟩
  cases op with
  | createDatabaseOp d c e =>
    rw [show (step st hp (Op.createDatabaseOp d c e)).st = st from
      create_database_st st hp d c e]
    exact ⟨rfl, rfl, rfl, rfl⟩
  | listDatabasesOp c e rows =>
    rw [show (step st hp (Op.listDatabasesOp c e rows)).st = st from
      list_databases_st st hp c e rows]
    exact ⟨rfl, rfl, rfl, rfl⟩
  | switchDatabaseOp d c => exact switch_database_creds st hp d c
  | createTableOp t cols e =>
    rw [show (step st hp (Op.createTableOp t cols e)).st = st from
      create_table_st st hp t cols e]
    exact ⟨rfl, rfl, rfl, rfl⟩
  | addColumnOp d t col ty c e => exact switch_database_creds st hp d c
  | insertRowOp d t cv c e => exact switch_database_creds st hp d c
  | deleteRowOp d t rid c e => exact switch_database_creds st hp d c
  | updateRowOp d t rid dat c e => exact switch_database_creds st hp d c
  | closeConnectionOp =>
    rw [show (step st hp Op.closeConnectionOp).st = st from close_connection_st st hp]
    exact ⟨rfl, rfl, rfl, rfl⟩

/-! ### Claim C9 -/

/-- C9.  `close_connection` leaves the stored connection and cursor
fields untouched (they keep referencing the now-closed handles), so a
subsequent `create_table` passes the None-ness check and fails with an
InterfaceError on the closed cursor instead of reporting that no
session is active. -/
theorem claim_C9 (st : DatabaseManager) (hp : Heap) (c cu : Nat)
    (name : String) (cols : List (String × String)) (e : Bool)
    (hc : st.connection = some c) (hcu : st.cursor = some cu) :
    (close_connection st hp).st = st
    ∧ (create_table (close_connection st hp).st (close_connection st hp).hp name cols e).out
        = [Msg.errorMsg PyExc.interfaceError]
    ∧ Msg.notConnected ∉
        (create_table (close_connection st hp).st (close_connection st hp).hp
          name cols e).out := by
  have hst : (close_connection st hp).st = st := close_connection_st st hp
  have hhp : (close_connection st hp).hp = closeH (closeH hp cu) c := by
    simp [close_connection, hc, hcu]
  have hmem : cu ∈ (close_connection st hp).hp.closed := by
    rw [hhp]
    exact mem_closeH_of_mem _ c (mem_closeH_self hp cu)
  have hout : (create_table (close_connection st hp).st (close_connection st hp).hp
      name cols e).out = [Msg.errorMsg PyExc.interfaceError] := by
    rw [hst]
    simp [create_table, hc, hcu, hmem]
  refine ⟨hst, hout, ?_⟩
  rw [hout]
  simp

/-- C9 witness: after closing a live session, `create_table` reports an
InterfaceError, not the not-connected message. -/
theorem claim_C9_witness :
    (close_connection ⟨"u", "pw", "localhost", "5432", some 0, some 1⟩
        ⟨2, [(0, "db1")], []⟩).st = ⟨"u", "pw", "localhost", "5432", some 0, some 1⟩
    ∧ (create_table
        (close_connection ⟨"u", "pw", "localhost", "5432", some 0, some 1⟩
          ⟨2, [(0, "db1")], []⟩).st
        (close_connection ⟨"u", "pw", "localhost", "5432", some 0, some 1⟩
          ⟨2, [(0, "db1")], []⟩).hp "person" [] true).out
        = [Msg.errorMsg PyExc.interfaceError]
    ∧ Msg.notConnected ∉
        (create_table
          (close_connection ⟨"u", "pw", "localhost", "5432", some 0, some 1⟩
            ⟨2, [(0, "db1")], []⟩).st
          (close_connection ⟨"u", "pw", "localhost", "5432", some 0, some 1⟩
            ⟨2, [(0, "db1")], []⟩).hp "person" [] true).out :=
  claim_C9 ⟨"u", "pw", "localhost", "5432", some 0, some 1⟩ ⟨2, [(0, "db1")], []⟩
    0 1 "person" [] true rfl rfl

/-! ### Claim C10 -/

/-- C10.  `update_row` splices every key of the update mapping verbatim
(the raw `key = %s` text is a substring of the UPDATE statement) and
passes exactly the mapping's values followed by the row id as the bound
parameters, whereas `insert_row` renders every column name through the
identifier quoter (the double-quoted form is what appears in the INSERT
statement). -/
theorem claim_C10 (st : DatabaseManager) (hp : Heap) (db t rid k k2 : String)
    (data cv : List (String × String))
    (hk : k ∈ data.map Prod.fst) (hk2 : k2 ∈ cv.map Prod.fst)
    (hwf : ∀ x ∈ hp.closed, x < hp.next) :
    strContains (update_row_query t data) (k ++ " = %s")
    ∧ strContains (insert_row_query t cv) (quoteIdent k2)
    ∧ (update_row st hp db t rid data true true).out
        = [Msg.switched db,
           Msg.executedSQL (update_row_query t data) (data.map Prod.snd ++ [rid]),
           Msg.updatedRow t] := by
  refine ⟨?_, ?_, ?_⟩
  · show containsSeg (k ++ " = %s").data (update_row_query t data).data
    have heq : (update_row_query t data).data
        = (("UPDATE ".data ++ (quoteIdent t).data) ++ " SET ".data)
            ++ ((update_set_clause data).data ++ " WHERE id = %s".data) := by
      simp [update_row_query, data_app, List.append_assoc]
    rw [heq]
    exact containsSeg_append_right _ (containsSeg_append_left _ (setClause_mem data k hk))
  · show containsSeg (quoteIdent k2).data (insert_row_query t cv).data
    have h2 : containsSeg (quoteIdent k2).data
        (joinComma (cv.map fun kv => quoteIdent kv.1)).data := by
      refine containsSeg_joinComma ?_
      obtain ⟨kv, hkv, hfst⟩ := List.mem_map.mp hk2
      exact List.mem_map.mpr ⟨kv, hkv, by rw [hfst]⟩
    have heq2 : (insert_row_query t cv).data
        = (("INSERT INTO ".data ++ (quoteIdent t).data) ++ " (".data)
            ++ ((joinComma (cv.map fun kv => quoteIdent kv.1)).data
                ++ (") VALUES (".data
                    ++ ((joinComma (cv.map fun kv => quoteLit kv.2)).data ++ ")".data))) := by
      simp [insert_row_query, data_app, List.append_assoc]
    rw [heq2]
    exact containsSeg_append_right _ (containsSeg_append_left _ h2)
  · have hnot : hp.next + 1 ∉ hp.closed := fun hm => by
      have := hwf _ hm
      omega
    simp [update_row, sessionExec, sessionExecOut, switch_database, allocConn, allocCur, hnot]

/-- C10 witness: the update statement for mapping
`name ↦ Jane Doe, age ↦ 31` contains the raw `name = %s`, the insert
statement for `name ↦ John Doe, age ↦ 30` contains the quoted
identifier for `age`, and the executed UPDATE binds exactly the two
values plus the row id. -/
theorem claim_C10_witness :
    strContains (update_row_query "person" [("name", "Jane Doe"), ("age", "31")])
      ("name" ++ " = %s")
    ∧ strContains (insert_row_query "person" [("name", "John Doe"), ("age", "30")])
      (quoteIdent "age")
    ∧ (update_row (mkManagerDefault "postgres" "postgres") ⟨0, [], []⟩ "new_db" "person"
        "2" [("name", "Jane Doe"), ("age", "31")] true true).out
        = [Msg.switched "new_db",
           Msg.executedSQL
             (update_row_query "person" [("name", "Jane Doe"), ("age", "31")])
             (List.map Prod.snd [("name", "Jane Doe"), ("age", "31")] ++ ["2"]),
           Msg.updatedRow "person"] :=
  claim_C10 (mkManagerDefault "postgres" "postgres") ⟨0, [], []⟩ "new_db" "person" "2"
    "name" "age" [("name", "Jane Doe"), ("age", "31")] [("name", "John Doe"), ("age", "30")]
    (by decide) (by decide) (by simp)

end Scaler
